import Mathlib

/-!
Shallow embedding of the LancePay P&L reporting route
(`src/app/api/routes-d/finance/p-and-l/route.ts`).

Monetary amounts are modelled as rationals (the spec prescribes
decimal/fixed-point semantics for all monetary arithmetic).  Timestamps are
epoch milliseconds as integers; the date-only rendering
`toISOString().split('T')[0]` is modelled as the floor day index
(two timestamps render to the same date string iff they have the same
floor day index).
-/

namespace LancePay

/-- Modelled from the spec: `round2` from the shared finance helpers
(`_shared`, not present in the source tree) rounds a monetary value to two
decimal places.  The spec leaves the tie-breaking rule open; we use
round-half-up, matching `Math.round(x * 100) / 100`.  All uses below avoid
ties, so the settled claims do not depend on the tie rule. -/
def round2 (q : ℚ) : ℚ := (⌊q * 100 + 1 / 2⌋ : ℚ) / 100

/-- Modelled from the spec: `computePlatformFee` from the shared finance
helpers computes `round2(amount × 0.005)` (0.5% platform fee). -/
def computePlatformFee (amount : ℚ) : ℚ := round2 (amount * (5 / 1000))

/-- Modelled from the spec: `computeWithdrawalFee` from the shared finance
helpers computes `round2(amount × 0.005)` (0.5% withdrawal fee). -/
def computeWithdrawalFee (amount : ℚ) : ℚ := round2 (amount * (5 / 1000))

/-- Modelled from the spec: the closed set of period tokens accepted by
`isValidPeriod` from the shared finance helpers. -/
def validPeriods : List String :=
  ["current_month", "last_month", "current_quarter", "last_year"]

/-- Modelled from the spec: `isValidPeriod` from the shared finance helpers
tests membership in the closed period-token set. -/
def isValidPeriod (p : String) : Bool := validPeriods.contains p

/-- A resolved reporting period: human label plus a half-open interval
`[startTime, endTime)` in epoch milliseconds. -/
structure PeriodRange where
  label : String
  startTime : Int
  endTime : Int
deriving DecidableEq

/-- The invoice fields selected by the income query
(`invoiceNumber`, `clientEmail`, `clientName`, `description`, `amount`). -/
structure Invoice where
  invoiceNumber : String
  clientEmail : String
  clientName : Option String
  description : String
  amount : ℚ
deriving DecidableEq

/-- A ledger transaction as read by the route: owner, status, type,
amount, completion time, and the (optional) linked invoice. -/
structure Transaction where
  id : Nat
  userId : Nat
  status : String
  type : String
  amount : ℚ
  completedAt : Int
  invoice : Option Invoice
deriving DecidableEq

/-- Ascending completion-time order (`orderBy: { completedAt: 'asc' }`). -/
def byTimeAsc (a b : Transaction) : Prop := a.completedAt ≤ b.completedAt

instance : DecidableRel byTimeAsc := fun a b =>
  inferInstanceAs (Decidable (a.completedAt ≤ b.completedAt))

instance : IsTotal Transaction byTimeAsc :=
  ⟨fun a b => le_total a.completedAt b.completedAt⟩

instance : IsTrans Transaction byTimeAsc :=
  ⟨fun _ _ _ h1 h2 => le_trans h1 h2⟩

/-- The `where` clause of the income query: the requesting user's completed
`incoming`/`payment` transactions with `completedAt ∈ [start, end)`. -/
def incomeWhere (userId : Nat) (r : PeriodRange) (t : Transaction) : Bool :=
  t.userId == userId && t.status == "completed" &&
    (t.type == "incoming" || t.type == "payment") &&
    decide (r.startTime ≤ t.completedAt) && decide (t.completedAt < r.endTime)

/-- The `where` clause of the refund query. -/
def refundWhere (userId : Nat) (r : PeriodRange) (t : Transaction) : Bool :=
  t.userId == userId && t.status == "completed" && t.type == "refund" &&
    decide (r.startTime ≤ t.completedAt) && decide (t.completedAt < r.endTime)

/-- The `where` clause of the withdrawal query. -/
def withdrawalWhere (userId : Nat) (r : PeriodRange) (t : Transaction) : Bool :=
  t.userId == userId && t.status == "completed" && t.type == "withdrawal" &&
    decide (r.startTime ≤ t.completedAt) && decide (t.completedAt < r.endTime)

/-- `prisma.transaction.findMany` for income transactions: filter the ledger
by the `where` clause and return the rows in ascending completion-time
order. -/
def findIncomeTransactions (ledger : List Transaction) (userId : Nat)
    (r : PeriodRange) : List Transaction :=
  List.insertionSort byTimeAsc (ledger.filter (incomeWhere userId r))

/-- `prisma.transaction.findMany` for refund transactions. -/
def findRefundTransactions (ledger : List Transaction) (userId : Nat)
    (r : PeriodRange) : List Transaction :=
  List.insertionSort byTimeAsc (ledger.filter (refundWhere userId r))

/-- `prisma.transaction.findMany` for withdrawal transactions. -/
def findWithdrawalTransactions (ledger : List Transaction) (userId : Nat)
    (r : PeriodRange) : List Transaction :=
  List.insertionSort byTimeAsc (ledger.filter (withdrawalWhere userId r))

/-- `txs.reduce((sum, t) => sum + Number(t.amount), 0)`. -/
def sumAmounts (txs : List Transaction) : ℚ :=
  txs.foldl (fun s t => s + t.amount) 0

/-- `const totalIncome = round2(incomeTransactions.reduce(...))`. -/
def totalIncome (incomeTxs : List Transaction) : ℚ := round2 (sumAmounts incomeTxs)

/-- `const totalRefunds = round2(refundTransactions.reduce(...))`. -/
def totalRefunds (refundTxs : List Transaction) : ℚ := round2 (sumAmounts refundTxs)

/-- `const grossIncome = round2(totalIncome - totalRefunds)`. -/
def grossIncome (incomeTxs refundTxs : List Transaction) : ℚ :=
  round2 (totalIncome incomeTxs - totalRefunds refundTxs)

/-- `const platformFees = round2(incomeTransactions.reduce((sum, t) =>
sum + computePlatformFee(Number(t.amount)), 0))`. -/
def platformFees (incomeTxs : List Transaction) : ℚ :=
  round2 (incomeTxs.foldl (fun s t => s + computePlatformFee t.amount) 0)

/-- `const withdrawalFees = round2(withdrawalTransactions.reduce((sum, t) =>
sum + computeWithdrawalFee(Number(t.amount)), 0))`. -/
def withdrawalFees (withdrawalTxs : List Transaction) : ℚ :=
  round2 (withdrawalTxs.foldl (fun s t => s + computeWithdrawalFee t.amount) 0)

/-- `const operatingExpenses = round2(withdrawalTransactions.reduce(...))`:
note the source applies `round2` to the sum of withdrawal amounts. -/
def operatingExpenses (withdrawalTxs : List Transaction) : ℚ :=
  round2 (sumAmounts withdrawalTxs)

/-- `const netProfit = round2(grossIncome - platformFees - withdrawalFees -
operatingExpenses)`. -/
def netProfit (incomeTxs refundTxs withdrawalTxs : List Transaction) : ℚ :=
  round2 (grossIncome incomeTxs refundTxs - platformFees incomeTxs -
    withdrawalFees withdrawalTxs - operatingExpenses withdrawalTxs)

/-- One entry of the route's `clientMap`:
`{ name, email, revenue, invoiceCount }`. -/
structure ClientSummary where
  name : String
  email : String
  revenue : ℚ
  invoiceCount : Nat
deriving DecidableEq

/-- `transaction.invoice.clientName || 'Unknown Client'` with JS truthiness:
a missing or empty name falls back to the sentinel. -/
def clientDisplayName (n : Option String) : String :=
  match n with
  | none => "Unknown Client"
  | some s => if s = "" then "Unknown Client" else s

/-- The `clientMap` update for one invoice-linked transaction: if the
identity key is absent a fresh entry `{revenue: 0, invoiceCount: 0}` is
appended (JS `Map` preserves insertion order), then the entry gets
`revenue := round2(revenue + amount)` and `invoiceCount := invoiceCount + 1`.
The map is modelled as an association list in insertion order. -/
def addToClientMap (email name : String) (amount : ℚ) :
    List ClientSummary → List ClientSummary
  | [] => [{ name := name, email := email, revenue := round2 (0 + amount),
             invoiceCount := 1 }]
  | c :: cs =>
    if c.email = email then
      { c with revenue := round2 (c.revenue + amount),
               invoiceCount := c.invoiceCount + 1 } :: cs
    else
      c :: addToClientMap email name amount cs

/-- One iteration of the `for (const transaction of incomeTransactions)`
loop: transactions without a linked invoice are skipped; otherwise the map
entry keyed by the lowercased invoice client email is created/updated. -/
def clientStep (acc : List ClientSummary) (t : Transaction) :
    List ClientSummary :=
  match t.invoice with
  | none => acc
  | some inv =>
    addToClientMap inv.clientEmail.toLower (clientDisplayName inv.clientName)
      t.amount acc

/-- The fully folded `clientMap`, as `Array.from(clientMap.values())`
(insertion order). -/
def clientList (incomeTxs : List Transaction) : List ClientSummary :=
  incomeTxs.foldl clientStep []

/-- Descending-revenue order, the comparator `(a, b) => b.revenue - a.revenue`. -/
def byRevenueDesc (a b : ClientSummary) : Prop := b.revenue ≤ a.revenue

instance : DecidableRel byRevenueDesc := fun a b =>
  inferInstanceAs (Decidable (b.revenue ≤ a.revenue))

instance : IsTotal ClientSummary byRevenueDesc :=
  ⟨fun a b => le_total b.revenue a.revenue⟩

instance : IsTrans ClientSummary byRevenueDesc :=
  ⟨fun _ _ _ h1 h2 => le_trans h2 h1⟩

/-- `Array.from(clientMap.values()).sort((a, b) => b.revenue - a.revenue)
.slice(0, 5)`: JS `sort` is stable, so this is a stable descending-revenue
sort truncated to 5. -/
def topClients (incomeTxs : List Transaction) : List ClientSummary :=
  (List.insertionSort byRevenueDesc (clientList incomeTxs)).take 5

/-- Milliseconds per calendar day. -/
def msPerDay : Int := 86400000

/-- `new Date(t).toISOString().split('T')[0]`, modelled as the floor day
index of the timestamp: two timestamps render to the same `YYYY-MM-DD`
string iff they lie in the same UTC day, i.e. have the same floor day
index. -/
def dateOnly (t : Int) : Int := Int.fdiv t msPerDay

/-- The `summary` object of the JSON response. -/
structure Summary where
  totalIncome : ℚ
  platformFees : ℚ
  withdrawalFees : ℚ
  operatingExpenses : ℚ
  netProfit : ℚ
deriving DecidableEq

/-- The `responseData` value (dates as floor day indices, see `dateOnly`). -/
structure ResponseData where
  period : String
  dateRangeStart : Int
  dateRangeEnd : Int
  summary : Summary
  topClients : List ClientSummary
  currency : String
deriving DecidableEq

/-- Lines 177–192 of the route: assemble `responseData` from the period
range and the three fetched transaction lists.  Note
`summary.totalIncome = grossIncome` and
`dateRange.end = dateOnly(end − 1ms)`. -/
def buildResponseData (r : PeriodRange)
    (incomeTxs refundTxs withdrawalTxs : List Transaction) : ResponseData :=
  { period := r.label
    dateRangeStart := dateOnly r.startTime
    dateRangeEnd := dateOnly (r.endTime - 1)
    summary :=
      { totalIncome := grossIncome incomeTxs refundTxs
        platformFees := platformFees incomeTxs
        withdrawalFees := withdrawalFees withdrawalTxs
        operatingExpenses := operatingExpenses withdrawalTxs
        netProfit := netProfit incomeTxs refundTxs withdrawalTxs }
    topClients := topClients incomeTxs
    currency := "USD" }

/-- The route's possible responses: the JSON report, a JSON error with a
status code, or the PDF document (report data plus attachment filename). -/
inductive HResponse where
  | jsonOk (data : ResponseData)
  | jsonError (status : Nat) (msg : String)
  | pdfRes (data : ResponseData) (filename : String)
deriving DecidableEq

/-- The report data carried by a response, if any (errors carry none). -/
def HResponse.reportData : HResponse → Option ResponseData
  | .jsonOk d => some d
  | .jsonError _ _ => none
  | .pdfRes d _ => some d

/-- `searchParams.get('format') || 'json'`: a missing or empty `format`
parameter defaults to `json` (JS truthiness). -/
def normalizeFormat (format? : Option String) : String :=
  match format? with
  | none => "json"
  | some s => if s = "" then "json" else s

/-- The `GET` handler's control flow.  External effects are explicit
inputs: `resolveRange` stands for `getPeriodDateRange` (period calendar
resolution, not in the source tree), `auth` for
`getOrCreateUserFromRequest` (error message or user id), `ledger` for the
transaction store (`none` = store failure, which the `catch` turns into a
500), `renderOk` for PDF render success, and `now` for `Date.now()` in the
attachment filename. -/
def GET (resolveRange : String → Option PeriodRange)
    (auth : Except String Nat) (period? format? : Option String)
    (ledger : Option (List Transaction)) (renderOk : Bool) (now : Int) :
    HResponse :=
  match auth with
  | .error e => .jsonError 401 e
  | .ok userId =>
    let format := normalizeFormat format?
    let period := period?.getD ""
    if period = "" then
      .jsonError 400
        "period parameter is required (current_month, last_month, current_quarter, last_year)"
    else if isValidPeriod period = false then
      .jsonError 400
        "Invalid period. Must be: current_month, last_month, current_quarter, or last_year"
    else if format ≠ "json" ∧ format ≠ "pdf" then
      .jsonError 400 "Invalid format. Must be: json or pdf"
    else
      match resolveRange period with
      | none => .jsonError 400 "Failed to parse period"
      | some r =>
        match ledger with
        | none => .jsonError 500 "Failed to generate P&L report"
        | some txs =>
          let data := buildResponseData r
            (findIncomeTransactions txs userId r)
            (findRefundTransactions txs userId r)
            (findWithdrawalTransactions txs userId r)
          if format = "pdf" then
            if renderOk then
              .pdfRes data ("P&L-" ++ period ++ "-" ++ toString now ++ ".pdf")
            else .jsonError 500 "Failed to generate P&L report"
          else .jsonOk data

/-- `clientMap.get(email)`: first entry with the given identity key (the
association list built by `addToClientMap` keeps identities unique). -/
def findClient (email : String) : List ClientSummary → Option ClientSummary
  | [] => none
  | c :: cs => if c.email = email then some c else findClient email cs

/-- The `invoiceCount` recorded for an identity key (0 when absent). -/
def clientInvoiceCount (email : String) (m : List ClientSummary) : Nat :=
  match findClient email m with
  | some c => c.invoiceCount
  | none => 0

/-- Whether a transaction is invoice-linked with the given identity key
(lowercased invoice client email). -/
def matchesIdentity (e : String) (t : Transaction) : Bool :=
  match t.invoice with
  | some inv => inv.clientEmail.toLower == e
  | none => false

/-! ### Concrete fixtures used by counterexamples and witnesses -/

/-- A completed incoming transaction of $100 inside the test period. -/
def exIncomeTx : Transaction :=
  { id := 1, userId := 1, status := "completed", type := "incoming",
    amount := 100, completedAt := 10, invoice := none }

/-- A completed refund transaction of $30 inside the test period. -/
def exRefundTx : Transaction :=
  { id := 2, userId := 1, status := "completed", type := "refund",
    amount := 30, completedAt := 20, invoice := none }

/-- A completed withdrawal of $0.001 (sub-cent storage precision is
allowed; the data model enforces two decimals by rounding, not storage). -/
def exSubCentWd : Transaction :=
  { id := 3, userId := 1, status := "completed", type := "withdrawal",
    amount := 1 / 1000, completedAt := 30, invoice := none }

/-- A one-day test period. -/
def exPeriod : PeriodRange := { label := "Test Period", startTime := 0, endTime := 86400000 }

/-- A completed invoice-linked incoming transaction. -/
def mkInvTx (i : Nat) (amt : ℚ) (time : Int) (em nm : String) : Transaction :=
  { id := i, userId := 1, status := "completed", type := "incoming",
    amount := amt, completedAt := time,
    invoice := some { invoiceNumber := "INV", clientEmail := em,
                      clientName := some nm, description := "work", amount := amt } }

/-- Income transactions with a revenue tie: client `a@x` (seen first) and
client `c@x` both total $50; client `b@x` totals $250. -/
def exRankTxs : List Transaction :=
  [mkInvTx 1 50 1 "a@x" "A", mkInvTx 2 250 2 "b@x" "B", mkInvTx 3 50 3 "c@x" "C"]

/-! ### C1 -/

/-- C1 counterexample: with one completed in-range income transaction of
$100 and one refund of $30, the JSON response's `summary.totalIncome` is
70, not the Aggregator's `totalIncome` of 100 — the response field holds
income minus refunds, contradicting the claim. -/
theorem C1_counterexample :
    (buildResponseData exPeriod [exIncomeTx] [exRefundTx] []).summary.totalIncome
      ≠ totalIncome [exIncomeTx] := by
  simp only [buildResponseData, grossIncome, totalIncome, totalRefunds,
    sumAmounts, round2, List.foldl, exPeriod, exIncomeTx, exRefundTx]
  norm_num

/-- C1 (amended): the `totalIncome` field of the response's `summary`
equals `grossIncome`, i.e. `round2(round2(Σ income) − round2(Σ refunds))`,
the rounded income total minus the rounded refund total — not the raw
income total alone. -/
theorem C1_response_totalIncome_is_grossIncome (r : PeriodRange)
    (inc ref wd : List Transaction) :
    (buildResponseData r inc ref wd).summary.totalIncome
      = round2 (round2 (sumAmounts inc) - round2 (sumAmounts ref)) := rfl

/-! ### C2 -/

/-- C2: the assembled report satisfies
`grossIncome = round2(totalIncome − totalRefunds)` and
`netProfit = round2(grossIncome − platformFees − withdrawalFees −
operatingExpenses)`, where `totalIncome` and `totalRefunds` are the rounded
sums of the amounts of the income and refund transactions. -/
theorem C2_gross_net_invariant (r : PeriodRange)
    (inc ref wd : List Transaction) :
    grossIncome inc ref = round2 (totalIncome inc - totalRefunds ref) ∧
    (buildResponseData r inc ref wd).summary.netProfit
      = round2 (grossIncome inc ref - platformFees inc - withdrawalFees wd -
          operatingExpenses wd) ∧
    totalIncome inc = round2 (sumAmounts inc) ∧
    totalRefunds ref = round2 (sumAmounts ref) :=
  ⟨rfl, rfl, rfl, rfl⟩

/-! ### C3 -/

/-- C3 counterexample: for a single completed withdrawal of $0.001 the
code's `operatingExpenses` is `round2(0.001) = 0`, not the raw sum
`0.001` — the source applies `round2` to the withdrawal total, so
`operatingExpenses` is not the raw sum of withdrawal amounts. -/
theorem C3_counterexample :
    operatingExpenses [exSubCentWd] ≠ sumAmounts [exSubCentWd] := by
  simp only [operatingExpenses, sumAmounts, round2, List.foldl, exSubCentWd]
  norm_num

/-- C3 (amended): `platformFees` is the rounded sum of `computePlatformFee`
over the income transactions, `withdrawalFees` is the rounded sum of
`computeWithdrawalFee` over the withdrawals, and `operatingExpenses` is the
*rounded* (not raw) sum of the withdrawal amounts. -/
theorem C3_fee_totals (inc wd : List Transaction) :
    platformFees inc
      = round2 (inc.foldl (fun s t => s + computePlatformFee t.amount) 0) ∧
    withdrawalFees wd
      = round2 (wd.foldl (fun s t => s + computeWithdrawalFee t.amount) 0) ∧
    operatingExpenses wd = round2 (sumAmounts wd) :=
  ⟨rfl, rfl, rfl⟩

/-! ### C4 -/

/-- Inserting into a descending-revenue sorted prefix never crosses an
entry of equal revenue, so the revenue-`v` sublist is preserved. -/
theorem filter_revenue_orderedInsert (v : ℚ) (a : ClientSummary)
    (l : List ClientSummary) :
    (l.orderedInsert byRevenueDesc a).filter (fun c => c.revenue == v)
      = (a :: l).filter (fun c => c.revenue == v) := by
  induction l with
  | nil => rfl
  | cons b m ih =>
    by_cases h : byRevenueDesc a b
    · simp [List.orderedInsert, h]
    · have hlt : a.revenue < b.revenue := not_le.mp h
      simp only [List.orderedInsert, if_neg h]
      by_cases hbv : b.revenue = v
      · have hav : ¬ a.revenue = v := fun hv => absurd (hv.trans hbv.symm) (ne_of_lt hlt)
        simp [List.filter_cons, hbv, hav, ih]
      · simp [List.filter_cons, hbv, ih]

/-- Stability of the descending-revenue insertion sort: entries of any
fixed revenue keep their relative (insertion) order. -/
theorem filter_revenue_insertionSort (v : ℚ) (l : List ClientSummary) :
    (List.insertionSort byRevenueDesc l).filter (fun c => c.revenue == v)
      = l.filter (fun c => c.revenue == v) := by
  induction l with
  | nil => rfl
  | cons a m ih =>
    rw [List.insertionSort, filter_revenue_orderedInsert]
    simp only [List.filter_cons, ih]

/-- C4: `topClients` is the client list sorted by descending revenue and
truncated to at most 5 entries; the sort is a permutation of the folded
per-identity summaries, it is sorted by descending revenue, and it is
stable — for every revenue value the entries of that revenue appear in
their original insertion order, so ties rank the first-seen identity
higher. -/
theorem C4_topClients_ranking (incomeTxs : List Transaction) :
    topClients incomeTxs
      = (List.insertionSort byRevenueDesc (clientList incomeTxs)).take 5 ∧
    (topClients incomeTxs).length ≤ 5 ∧
    List.Sorted byRevenueDesc
      (List.insertionSort byRevenueDesc (clientList incomeTxs)) ∧
    (List.insertionSort byRevenueDesc (clientList incomeTxs)).Perm
      (clientList incomeTxs) ∧
    ∀ v : ℚ,
      (List.insertionSort byRevenueDesc (clientList incomeTxs)).filter
          (fun c => c.revenue == v)
        = (clientList incomeTxs).filter (fun c => c.revenue == v) := by
  refine ⟨rfl, ?_, List.sorted_insertionSort _ _, List.perm_insertionSort _ _,
    fun v => filter_revenue_insertionSort v _⟩
  rw [topClients]
  exact List.length_take_le 5 _

/-- C4 witness: on a concrete transaction list with a revenue tie
(client a seen before client c, both $50, client b at $250), `topClients`
returns `[b, a, c]` — descending revenue, tie broken by insertion order —
and the properties of the ranking theorem evaluate there. -/
theorem C4_witness :
    ((topClients exRankTxs).map (fun c => c.email) = ["b@x", "a@x", "c@x"]) ∧
    (topClients exRankTxs).length ≤ 5 ∧
    (List.insertionSort byRevenueDesc (clientList exRankTxs)).filter
        (fun c => c.revenue == (50 : ℚ))
      = (clientList exRankTxs).filter (fun c => c.revenue == (50 : ℚ)) := by
  refine ⟨?_, (C4_topClients_ranking exRankTxs).2.1,
    (C4_topClients_ranking exRankTxs).2.2.2.2 50⟩
  simp only [exRankTxs, mkInvTx, topClients, clientList, List.foldl, clientStep,
    clientDisplayName, addToClientMap, round2, String.toLower, String.map_eq]
  norm_num [List.insertionSort, List.orderedInsert, byRevenueDesc]
  decide

/-! ### C5 -/

/-- C5: each of the three queries returns exactly the requesting user's
completed transactions of the matching type with `completedAt` in the
half-open interval `[start, end)`, and each returned list is in ascending
completion-time order. -/
theorem C5_query_selection (ledger : List Transaction) (userId : Nat)
    (r : PeriodRange) :
    (∀ t, t ∈ findIncomeTransactions ledger userId r ↔
      (t ∈ ledger ∧ t.userId = userId ∧ t.status = "completed" ∧
        (t.type = "incoming" ∨ t.type = "payment") ∧
        r.startTime ≤ t.completedAt ∧ t.completedAt < r.endTime)) ∧
    List.Sorted byTimeAsc (findIncomeTransactions ledger userId r) ∧
    (∀ t, t ∈ findRefundTransactions ledger userId r ↔
      (t ∈ ledger ∧ t.userId = userId ∧ t.status = "completed" ∧
        t.type = "refund" ∧
        r.startTime ≤ t.completedAt ∧ t.completedAt < r.endTime)) ∧
    List.Sorted byTimeAsc (findRefundTransactions ledger userId r) ∧
    (∀ t, t ∈ findWithdrawalTransactions ledger userId r ↔
      (t ∈ ledger ∧ t.userId = userId ∧ t.status = "completed" ∧
        t.type = "withdrawal" ∧
        r.startTime ≤ t.completedAt ∧ t.completedAt < r.endTime)) ∧
    List.Sorted byTimeAsc (findWithdrawalTransactions ledger userId r) := by
  refine ⟨fun t => ?_, List.sorted_insertionSort _ _, fun t => ?_,
    List.sorted_insertionSort _ _, fun t => ?_, List.sorted_insertionSort _ _⟩ <;>
    simp [findIncomeTransactions, findRefundTransactions,
      findWithdrawalTransactions, incomeWhere, refundWhere, withdrawalWhere,
      List.mem_filter, and_assoc]

/-- C5 witness: on a concrete ledger holding an income transaction, a
refund and a withdrawal, the income query returns exactly the income
transaction (the refund and withdrawal are excluded), concretely
discharging the membership characterization. -/
theorem C5_witness :
    exIncomeTx ∈ findIncomeTransactions [exRefundTx, exIncomeTx, exSubCentWd] 1 exPeriod ∧
    exRefundTx ∉ findIncomeTransactions [exRefundTx, exIncomeTx, exSubCentWd] 1 exPeriod := by
  constructor
  · exact ((C5_query_selection [exRefundTx, exIncomeTx, exSubCentWd] 1 exPeriod).1
      exIncomeTx).mpr (by decide)
  · intro hmem
    have h := ((C5_query_selection [exRefundTx, exIncomeTx, exSubCentWd] 1 exPeriod).1
      exRefundTx).mp hmem
    revert h
    decide

/-! ### C6 -/

/-- C6: authentication failure yields 401 with the auth error; a missing
(or empty, by JS truthiness) period and a period outside the closed set
yield 400; a format other than `json`/`pdf` (after defaulting) yields 400;
a ledger-store failure and a PDF render failure both surface as the single
generic 500 `Failed to generate P&L report`; and an error response never
carries report data (no partial report). -/
theorem C6_error_handling (resolveRange : String → Option PeriodRange)
    (e : String) (u : Nat) (period? format? : Option String)
    (ledger : Option (List Transaction)) (renderOk : Bool) (now : Int) :
    (GET resolveRange (.error e) period? format? ledger renderOk now
        = .jsonError 401 e) ∧
    (period?.getD "" = "" →
      GET resolveRange (.ok u) period? format? ledger renderOk now
        = .jsonError 400
          "period parameter is required (current_month, last_month, current_quarter, last_year)") ∧
    (period?.getD "" ≠ "" → isValidPeriod (period?.getD "") = false →
      GET resolveRange (.ok u) period? format? ledger renderOk now
        = .jsonError 400
          "Invalid period. Must be: current_month, last_month, current_quarter, or last_year") ∧
    (period?.getD "" ≠ "" → isValidPeriod (period?.getD "") = true →
      normalizeFormat format? ≠ "json" → normalizeFormat format? ≠ "pdf" →
      GET resolveRange (.ok u) period? format? ledger renderOk now
        = .jsonError 400 "Invalid format. Must be: json or pdf") ∧
    (period?.getD "" ≠ "" → isValidPeriod (period?.getD "") = true →
      (normalizeFormat format? = "json" ∨ normalizeFormat format? = "pdf") →
      ledger = none →
      GET resolveRange (.ok u) period? format? ledger renderOk now
          = .jsonError 500 "Failed to generate P&L report" ∨
        GET resolveRange (.ok u) period? format? ledger renderOk now
          = .jsonError 400 "Failed to parse period") ∧
    (∀ r, period?.getD "" ≠ "" → isValidPeriod (period?.getD "") = true →
      normalizeFormat format? = "pdf" → renderOk = false →
      resolveRange (period?.getD "") = some r → ledger ≠ none →
      GET resolveRange (.ok u) period? format? ledger renderOk now
        = .jsonError 500 "Failed to generate P&L report") ∧
    (∀ st msg, GET resolveRange (.ok u) period? format? ledger renderOk now
        = .jsonError st msg →
      (GET resolveRange (.ok u) period? format? ledger renderOk now).reportData
        = none) := by
  refine ⟨rfl, ?_, ?_, ?_, ?_, ?_, ?_⟩
  · intro h1
    simp [GET, h1]
  · intro h1 h2
    simp [GET, h1, h2]
  · intro h1 h2 h3 h4
    simp [GET, h1, h2, h3, h4]
  · intro h1 h2 h3 hl
    subst hl
    cases hr : resolveRange (period?.getD "") with
    | none =>
      right
      rcases h3 with h3 | h3 <;> simp [GET, h1, h2, h3, hr]
    | some r =>
      left
      rcases h3 with h3 | h3 <;> simp [GET, h1, h2, h3, hr]
  · intro r h1 h2 h3 h4 hr hl
    cases ledger with
    | none => exact absurd rfl hl
    | some txs => simp [GET, h1, h2, h3, h4, hr]
  · intro st msg h
    rw [h]
    rfl

/-- C6 witness: concrete requests exercising each error path — missing
auth gives 401, missing period gives 400, `period=bogus` gives 400,
`format=csv` gives 400, a failing ledger store gives the generic 500, and
a failing PDF render gives the same generic 500. -/
theorem C6_witness :
    (GET (fun _ => some exPeriod) (.error "Unauthorized") (some "current_month")
        none none true 0 = .jsonError 401 "Unauthorized") ∧
    (GET (fun _ => some exPeriod) (.ok 1) none none (some []) true 0
      = .jsonError 400
        "period parameter is required (current_month, last_month, current_quarter, last_year)") ∧
    (GET (fun _ => some exPeriod) (.ok 1) (some "bogus") none (some []) true 0
      = .jsonError 400
        "Invalid period. Must be: current_month, last_month, current_quarter, or last_year") ∧
    (GET (fun _ => some exPeriod) (.ok 1) (some "current_month") (some "csv")
        (some []) true 0 = .jsonError 400 "Invalid format. Must be: json or pdf") ∧
    (GET (fun _ => some exPeriod) (.ok 1) (some "current_month") none
        none true 0 = .jsonError 500 "Failed to generate P&L report") ∧
    (GET (fun _ => some exPeriod) (.ok 1) (some "current_month") (some "pdf")
        (some []) false 0 = .jsonError 500 "Failed to generate P&L report") := by
  refine ⟨(C6_error_handling (fun _ => some exPeriod) "Unauthorized" 1
      (some "current_month") none none true 0).1,
    (C6_error_handling (fun _ => some exPeriod) "e" 1 none none (some []) true 0).2.1
      rfl,
    (C6_error_handling (fun _ => some exPeriod) "e" 1 (some "bogus") none
      (some []) true 0).2.2.1 (by decide) (by decide),
    (C6_error_handling (fun _ => some exPeriod) "e" 1 (some "current_month")
      (some "csv") (some []) true 0).2.2.2.1 (by decide) (by decide) (by decide)
      (by decide),
    ?_,
    (C6_error_handling (fun _ => some exPeriod) "e" 1 (some "current_month")
      (some "pdf") (some []) false 0).2.2.2.2.2.1 exPeriod (by decide) (by decide)
      rfl rfl rfl (by simp)⟩
  have h := (C6_error_handling (fun _ => some exPeriod) "e" 1 (some "current_month")
    none none true 0).2.2.2.2.1 (by decide) (by decide) (Or.inl rfl) rfl
  rcases h with h | h
  · exact h
  · exact absurd h (by decide)

/-! ### C7 -/

/-- C7: in the JSON encoding, `dateRange.start` is the period start
truncated to a date (floor day index) and `dateRange.end` is the period's
exclusive end minus 1 millisecond truncated to a date; in particular, when
the exclusive end falls exactly on a day boundary `k · msPerDay`, the
reported end day is `k − 1`, the last day inside the half-open period. -/
theorem C7_dateRange_rendering (r : PeriodRange)
    (inc ref wd : List Transaction) (k : Int) :
    (buildResponseData r inc ref wd).dateRangeStart = dateOnly r.startTime ∧
    (buildResponseData r inc ref wd).dateRangeEnd = dateOnly (r.endTime - 1) ∧
    (r.endTime = k * msPerDay →
      (buildResponseData r inc ref wd).dateRangeEnd = k - 1) := by
  refine ⟨rfl, rfl, fun hk => ?_⟩
  show dateOnly (r.endTime - 1) = k - 1
  rw [hk, dateOnly]
  simp only [msPerDay]
  rw [Int.fdiv_eq_ediv _ (by norm_num)]
  omega

/-- C7 witness: for the concrete one-day test period `[0, 86400000)` the
rendered start day is day 0 and the rendered end day is day 0 as well —
the last inclusive day of the period, not the exclusive bound (day 1). -/
theorem C7_witness :
    exPeriod.endTime = 1 * msPerDay ∧
    (buildResponseData exPeriod [] [] []).dateRangeStart = dateOnly exPeriod.startTime ∧
    (buildResponseData exPeriod [] [] []).dateRangeEnd = 0 := by
  refine ⟨by norm_num [exPeriod, msPerDay],
    (C7_dateRange_rendering exPeriod [] [] [] 1).1, ?_⟩
  have h := (C7_dateRange_rendering exPeriod [] [] [] 1).2.2
    (by norm_num [exPeriod, msPerDay])
  simpa using h

/-! ### C8 -/

/-- C8: report generation is deterministic in everything but the clock —
two requests with the same auth result, parameters and ledger state
produce identical report data (`summary`, `topClients` and all other
response fields); only the PDF attachment filename can differ through its
`Date.now()` timestamp. -/
theorem C8_idempotent_reports (resolveRange : String → Option PeriodRange)
    (auth : Except String Nat) (period? format? : Option String)
    (ledger : Option (List Transaction)) (renderOk : Bool) (t1 t2 : Int) :
    (GET resolveRange auth period? format? ledger renderOk t1).reportData
      = (GET resolveRange auth period? format? ledger renderOk t2).reportData ∧
    Option.map ResponseData.summary
        (GET resolveRange auth period? format? ledger renderOk t1).reportData
      = Option.map ResponseData.summary
        (GET resolveRange auth period? format? ledger renderOk t2).reportData ∧
    Option.map ResponseData.topClients
        (GET resolveRange auth period? format? ledger renderOk t1).reportData
      = Option.map ResponseData.topClients
        (GET resolveRange auth period? format? ledger renderOk t2).reportData := by
  have h : (GET resolveRange auth period? format? ledger renderOk t1).reportData
      = (GET resolveRange auth period? format? ledger renderOk t2).reportData := by
    cases auth with
    | error e => rfl
    | ok u =>
      simp only [GET]
      repeat' split <;> try rfl
  exact ⟨h, by rw [h], by rw [h]⟩

/-! ### C9 -/

/-- The client-ranking loop skips a transaction with no linked invoice. -/
theorem clientStep_invoiceless (acc : List ClientSummary) (t : Transaction)
    (h : t.invoice = none) : clientStep acc t = acc := by
  simp [clientStep, h]

/-- Dropping the invoice-less transactions does not change the folded
client map. -/
theorem clientFold_filter_isSome (l : List Transaction)
    (acc : List ClientSummary) :
    (l.filter fun t => t.invoice.isSome).foldl clientStep acc
      = l.foldl clientStep acc := by
  induction l generalizing acc with
  | nil => rfl
  | cons t m ih =>
    cases hi : t.invoice with
    | none =>
      rw [List.foldl_cons, clientStep_invoiceless acc t hi]
      simpa [List.filter_cons, hi] using ih acc
    | some inv =>
      rw [List.foldl_cons]
      simpa [List.filter_cons, hi] using ih (clientStep acc t)

/-- Folding a sum from an arbitrary initial value. -/
theorem foldl_add_init (f : Transaction → ℚ) (l : List Transaction) (a : ℚ) :
    l.foldl (fun s t => s + f t) a = a + l.foldl (fun s t => s + f t) 0 := by
  induction l generalizing a with
  | nil => simp
  | cons t m ih =>
    rw [List.foldl_cons, List.foldl_cons, ih, ih (0 + f t)]
    ring

/-- C9: a completed in-range income transaction with no linked invoice
still contributes its amount to the income sum (hence to `totalIncome`)
and its platform fee to the fee sum (hence to `platformFees`), but it is
silently skipped by the client-ranking fold: the client map over any list
equals the map over its invoice-linked sublist, with no sentinel entry and
no error. -/
theorem C9_invoiceless_income (l : List Transaction) (t : Transaction) :
    (t.invoice = none →
      sumAmounts (t :: l) = t.amount + sumAmounts l ∧
      (t :: l).foldl (fun s x => s + computePlatformFee x.amount) 0
        = computePlatformFee t.amount
          + l.foldl (fun s x => s + computePlatformFee x.amount) 0 ∧
      clientList (t :: l) = clientList l) ∧
    clientList (l.filter fun x => x.invoice.isSome) = clientList l ∧
    totalIncome l = round2 (sumAmounts l) ∧
    platformFees l
      = round2 (l.foldl (fun s x => s + computePlatformFee x.amount) 0) := by
  refine ⟨fun h => ⟨?_, ?_, ?_⟩, clientFold_filter_isSome l [], rfl, rfl⟩
  · rw [sumAmounts, List.foldl_cons, foldl_add_init]
    show (0 + t.amount) + sumAmounts l = t.amount + sumAmounts l
    ring
  · rw [List.foldl_cons, foldl_add_init]
    ring
  · rw [clientList, List.foldl_cons, clientStep_invoiceless [] t h]
    rfl

/-- C9 witness: the concrete invoice-less income transaction adds its
$100 to the income sum while leaving the client map untouched. -/
theorem C9_witness :
    exIncomeTx.invoice = none ∧
    sumAmounts [exIncomeTx] = exIncomeTx.amount + sumAmounts [] ∧
    clientList [exIncomeTx] = clientList [] := by
  refine ⟨rfl, ?_, ?_⟩
  · exact ((C9_invoiceless_income [] exIncomeTx).1 rfl).1
  · exact ((C9_invoiceless_income [] exIncomeTx).1 rfl).2.2

/-! ### C10 -/

/-- One `clientMap` update changes exactly the updated identity's
`invoiceCount`, incrementing it by one. -/
theorem clientInvoiceCount_addToClientMap (e e' n : String) (a : ℚ)
    (m : List ClientSummary) :
    clientInvoiceCount e (addToClientMap e' n a m)
      = clientInvoiceCount e m + (if e' = e then 1 else 0) := by
  induction m with
  | nil =>
    by_cases h : e' = e <;>
      simp [addToClientMap, clientInvoiceCount, findClient, h]
  | cons c cs ih =>
    by_cases hc : c.email = e'
    · by_cases he : c.email = e
      · have : e' = e := hc.symm.trans he
        simp [addToClientMap, clientInvoiceCount, findClient, hc, he, this]
      · have : ¬ e' = e := fun h => he (hc.trans h)
        simp [addToClientMap, clientInvoiceCount, findClient, hc, he, this]
    · by_cases he : c.email = e
      · have h1 : ¬ e' = e := fun h => hc (he.trans h.symm)
        have h2 : ¬ e = e' := fun h => h1 h.symm
        simp [addToClientMap, clientInvoiceCount, findClient, hc, he, h1, h2]
      · simpa [addToClientMap, clientInvoiceCount, findClient, hc, he] using ih

/-- Folding the ranking loop adds one to the identity's `invoiceCount` for
every matching transaction. -/
theorem clientInvoiceCount_fold (e : String) (l : List Transaction)
    (acc : List ClientSummary) :
    clientInvoiceCount e (l.foldl clientStep acc)
      = clientInvoiceCount e acc + l.countP (matchesIdentity e) := by
  induction l generalizing acc with
  | nil => simp
  | cons t m ih =>
    rw [List.foldl_cons, ih, List.countP_cons]
    cases ht : t.invoice with
    | none => simp [clientStep, ht, matchesIdentity]
    | some inv =>
      simp only [clientStep, ht, matchesIdentity]
      rw [clientInvoiceCount_addToClientMap]
      by_cases h : inv.clientEmail.toLower = e
      · simp [h]
        omega
      · simp [h]

/-- C10: for each identity key (lowercased invoice client email) the
recorded `invoiceCount` equals the number of invoice-linked transactions
carrying that identity — one increment per transaction, so several
payments against the same invoice are counted once per transaction. -/
theorem C10_invoiceCount_per_transaction (l : List Transaction) (e : String) :
    clientInvoiceCount e (clientList l) = l.countP (matchesIdentity e) := by
  rw [clientList, clientInvoiceCount_fold]
  simp [clientInvoiceCount, findClient]

end LancePay
